import Mathlib

/-!
Verification of the memory-consumption tracker declared in
`dbms/include/DB/Common/MemoryTracker.h`.

The header declares the class `MemoryTracker` (atomic `amount` and `peak`
counters, a `limit`, a `fault_probability`, a `next` chain link, a `metric`
identifier and a `description`), defines `realloc`, `get`, `getPeak`, the
configuration setters and both constructors inline, and declares
`alloc`, `free` and `reset` whose bodies live in a translation unit that is
not part of the sources at hand; those three bodies are modelled from the
specification and the definitions below say so in their doc comments.

The shallow embedding is sequential: each operation is a pure function from
tracker state to tracker state (plus an optional `BudgetExceeded` error for
`alloc`).  The per-call uniform random draw used by fault injection is made
an explicit argument `r`, with the contract `0 ≤ r < 1` of a uniform draw.
The thread-local pointer `current_memory_tracker` is modelled as an explicit
`Option Nat` value (a non-owning handle to a tracker), threaded through the
guard operations.
-/

namespace MemTrack

/-- `CurrentMetrics::Metric`: an identifier into an external metrics
registry, modelled as a plain index. -/
abbrev Metric := Nat

/-- `CurrentMetrics::MemoryTracking`, the default metric identifier. -/
def memoryTrackingMetric : Metric := 0

/-- The single error kind raised by `alloc`: it carries the current
`amount`, the `limit` and the optional `description` of the tracker whose
check failed. -/
structure BudgetExceeded where
  amount : Int
  limit : Int
  description : Option String
deriving Repr, DecidableEq

/-- State of one `MemoryTracker` object.  The member initializers of the
source header give every field its default: `amount {0}`, `peak {0}`,
`limit {0}`, `fault_probability = 0`, `next = nullptr`,
`metric = CurrentMetrics::MemoryTracking`, `description = nullptr`.
The C++ `double fault_probability` is modelled as a rational and the raw
`MemoryTracker * next` pointer as an optional non-owning handle. -/
structure MemoryTracker where
  amount : Int := 0
  peak : Int := 0
  limit : Int := 0
  fault_probability : Rat := 0
  next : Option Nat := none
  metric : Metric := memoryTrackingMetric
  description : Option String := none
deriving Repr, DecidableEq

/-- The default constructor `MemoryTracker()`: every field keeps its member
initializer. -/
def MemoryTracker.mkDefault : MemoryTracker := {}

/-- The one-argument constructor `MemoryTracker(Int64 limit_)`: identical to
the default constructor except that `limit` is set. -/
def MemoryTracker.mkWithLimit (limit_ : Int) : MemoryTracker :=
  { limit := limit_ }

/-- `Int64 get() const`: relaxed load of `amount` (source header, line 55). -/
def MemoryTracker.get (t : MemoryTracker) : Int :=
  t.amount

/-- `Int64 getPeak() const`: relaxed load of `peak` (source header,
line 60). -/
def MemoryTracker.getPeak (t : MemoryTracker) : Int :=
  t.peak

/-- `void setLimit(Int64 limit_)` (source header, line 65). -/
def MemoryTracker.setLimit (t : MemoryTracker) (limit_ : Int) : MemoryTracker :=
  { t with limit := limit_ }

/-- `void setFaultProbability(double value)` (source header, line 70). -/
def MemoryTracker.setFaultProbability (t : MemoryTracker) (value : Rat) : MemoryTracker :=
  { t with fault_probability := value }

/-- `void setNext(MemoryTracker * elem)` (source header, line 75). -/
def MemoryTracker.setNext (t : MemoryTracker) (elem : Option Nat) : MemoryTracker :=
  { t with next := elem }

/-- `void setMetric(CurrentMetrics::Metric metric_)` (source header,
line 80). -/
def MemoryTracker.setMetric (t : MemoryTracker) (metric_ : Metric) : MemoryTracker :=
  { t with metric := metric_ }

/-- `void setDescription(const char * description_)` (source header,
line 85). -/
def MemoryTracker.setDescription (t : MemoryTracker) (description_ : Option String) : MemoryTracker :=
  { t with description := description_ }

/-- Modelled from the spec: the body of `MemoryTracker::alloc` is declared
at line 44 of the header but defined in a translation unit missing from the
sources.  Per the spec, the local part of `alloc(size)` (chain forwarding is
modelled separately by `chainAlloc`):
adds `size` to `amount`; after the add, if the new `amount` exceeds `peak`,
`peak` is advanced to it; then enforcement runs: if `fault_probability > 0`
and the uniform draw `r` is below it, a `BudgetExceeded` carrying the
current `amount`, the `limit` and the `description` is raised; else if
`limit > 0` and the new `amount` exceeds `limit`, the same condition is
raised.  The counter is never rolled back: the condition is evaluated after
the increment and the debit stays until the caller calls `free`. -/
def MemoryTracker.allocLocal (t : MemoryTracker) (size : Int) (r : Rat) :
    MemoryTracker × Option BudgetExceeded :=
  let will_be := t.amount + size
  let t1 : MemoryTracker := { t with amount := will_be, peak := max t.peak will_be }
  let err : Option BudgetExceeded :=
    if 0 < t.fault_probability ∧ r < t.fault_probability then
      some { amount := will_be, limit := t.limit, description := t.description }
    else if 0 < t.limit ∧ t.limit < will_be then
      some { amount := will_be, limit := t.limit, description := t.description }
    else
      none
  (t1, err)

/-- Modelled from the spec: the body of `MemoryTracker::free` is declared at
line 53 of the header but defined in a translation unit missing from the
sources.  Per the spec, `free(size)` atomically subtracts `size` from
`amount`; it never fails and never consults the limit or the fault
probability. -/
def MemoryTracker.free (t : MemoryTracker) (size : Int) : MemoryTracker :=
  { t with amount := t.amount - size }

/-- Modelled from the spec: the body of `MemoryTracker::reset` is declared
at line 91 of the header but defined in a translation unit missing from the
sources.  Per the spec, `reset()` sets `amount` and `peak` to zero; `limit`,
`description`, `metric` and `next` are untouched. -/
def MemoryTracker.reset (t : MemoryTracker) : MemoryTracker :=
  { t with amount := 0, peak := 0 }

/-- `void realloc(Int64 old_size, Int64 new_size)` (source header, lines
46-49): the body is inline in the header and is exactly
`alloc(new_size - old_size)`. -/
def MemoryTracker.realloc (t : MemoryTracker) (old_size new_size : Int) (r : Rat) :
    MemoryTracker × Option BudgetExceeded :=
  t.allocLocal (new_size - old_size) r

/-- Modelled from the spec: chain propagation of `alloc` (the `next`
forwarding inside the missing body of `MemoryTracker::alloc`).  A chain is
the acyclic list of trackers reached from the head by following `next`
links (head first).  `alloc` on the head performs local bookkeeping and
enforcement, then unconditionally, regardless of the outcome, forwards the
same delta to the next tracker; the caller sees the first raised condition
from the nearest tracker outward.  Each tracker draws its own uniform
random value, supplied here as the list `rs`. -/
def chainAlloc : List MemoryTracker → Int → List Rat →
    List MemoryTracker × Option BudgetExceeded
  | [], _, _ => ([], none)
  | t :: rest, size, rs =>
      let here := t.allocLocal size (rs.headD 0)
      let further := chainAlloc rest size rs.tail
      (here.1 :: further.1,
        match here.2 with
        | some b => some b
        | none => further.2)

/-- One call in a single-tracker call sequence: either `alloc(size)` with
its uniform draw `r`, or `free(size)`. -/
inductive TrackerOp where
  | alloc (size : Int) (r : Rat)
  | free (size : Int)
deriving Repr, DecidableEq

/-- The signed delta a call contributes to `amount`. -/
def TrackerOp.delta : TrackerOp → Int
  | .alloc size _ => size
  | .free size => -size

/-- Sum of the deltas of a call sequence. -/
def sumDeltas (ops : List TrackerOp) : Int :=
  (ops.map TrackerOp.delta).sum

/-- Maximum prefix sum of the deltas of a call sequence, the empty prefix
(sum `0`) included. -/
def maxPrefixSum : List TrackerOp → Int
  | [] => 0
  | op :: ops => max 0 (op.delta + maxPrefixSum ops)

/-- Whether a call is a `free` of a non-negative byte count (every `alloc`
qualifies trivially). -/
def TrackerOp.freeNonneg : TrackerOp → Prop
  | .alloc _ _ => True
  | .free size => 0 ≤ size

instance : DecidablePred TrackerOp.freeNonneg := fun op =>
  match op with
  | .alloc _ _ => Decidable.isTrue trivial
  | .free size => inferInstanceAs (Decidable (0 ≤ size))

/-- Apply one call to a tracker (the state effect; `alloc` never rolls back,
so its state effect is taken whether or not it raises). -/
def MemoryTracker.applyOp (t : MemoryTracker) : TrackerOp → MemoryTracker
  | .alloc size r => (t.allocLocal size r).1
  | .free size => t.free size

/-- Run a call sequence left to right on a tracker. -/
def runOps (t : MemoryTracker) : List TrackerOp → MemoryTracker
  | [] => t
  | op :: ops => runOps (t.applyOp op) ops

/-- The thread-local pointer `current_memory_tracker` (header, line 103),
modelled as an optional non-owning handle. -/
abbrev CurrentTracker := Option Nat

/-- `TemporarilyDisableMemoryTracker` (source header, lines 108-122): the
guard object stores the saved pointer in its `memory_tracker` field. -/
structure TemporarilyDisableMemoryTracker where
  memory_tracker : CurrentTracker
deriving Repr, DecidableEq

/-- The guard constructor (header, lines 112-116): save the thread's
current pointer into the guard and set the pointer to `nullptr`.  Returns
the constructed guard and the new value of `current_memory_tracker`. -/
def guardConstruct (cur : CurrentTracker) :
    TemporarilyDisableMemoryTracker × CurrentTracker :=
  ({ memory_tracker := cur }, none)

/-- The guard destructor (header, lines 118-121): write the saved pointer
back into `current_memory_tracker`, whatever its current value `cur` is. -/
def guardDestruct (g : TemporarilyDisableMemoryTracker) (_cur : CurrentTracker) :
    CurrentTracker :=
  g.memory_tracker

/-- A fully nested (LIFO) tower of guarded regions: at each level a guard is
constructed, the region mutates the pointer by the arbitrary function at
that level, the inner tower runs, and this level's guard is destroyed. -/
def nestedGuards : List (CurrentTracker → CurrentTracker) → CurrentTracker → CurrentTracker
  | [], cur => cur
  | f :: fs, cur =>
      let con := guardConstruct cur
      let inner := nestedGuards fs (f con.2)
      guardDestruct con.1 inner

/-! ## Helper lemmas -/

lemma sumDeltas_cons (op : TrackerOp) (ops : List TrackerOp) :
    sumDeltas (op :: ops) = op.delta + sumDeltas ops := by
  simp [sumDeltas]

lemma maxPrefixSum_nonneg (ops : List TrackerOp) : 0 ≤ maxPrefixSum ops := by
  cases ops <;> simp [maxPrefixSum]

lemma applyOp_alloc_amount (t : MemoryTracker) (size : Int) (r : Rat) :
    (t.applyOp (.alloc size r)).amount = t.amount + size := rfl

lemma applyOp_alloc_peak (t : MemoryTracker) (size : Int) (r : Rat) :
    (t.applyOp (.alloc size r)).peak = max t.peak (t.amount + size) := rfl

lemma applyOp_free_amount (t : MemoryTracker) (size : Int) :
    (t.applyOp (.free size)).amount = t.amount - size := rfl

lemma applyOp_free_peak (t : MemoryTracker) (size : Int) :
    (t.applyOp (.free size)).peak = t.peak := rfl

lemma runOps_cons (t : MemoryTracker) (op : TrackerOp) (ops : List TrackerOp) :
    runOps t (op :: ops) = runOps (t.applyOp op) ops := rfl

/-- `amount` after a call sequence is the starting `amount` plus the sum of
the deltas. -/
lemma runOps_amount (ops : List TrackerOp) (t : MemoryTracker) :
    (runOps t ops).amount = t.amount + sumDeltas ops := by
  induction ops generalizing t with
  | nil => simp [runOps, sumDeltas]
  | cons op ops ih =>
      rw [runOps_cons, ih, sumDeltas_cons]
      cases op with
      | alloc size r => rw [applyOp_alloc_amount, TrackerOp.delta]; ring
      | free size => rw [applyOp_free_amount, TrackerOp.delta]; ring

/-- `peak` after a call sequence whose `free` sizes are non-negative, from a
state where `amount ≤ peak`: the old `peak` joined with the best prefix sum
reached on top of the starting `amount`. -/
lemma runOps_peak (ops : List TrackerOp) (t : MemoryTracker)
    (hle : t.amount ≤ t.peak) (hfree : ∀ op ∈ ops, op.freeNonneg) :
    (runOps t ops).peak = max t.peak (t.amount + maxPrefixSum ops) := by
  induction ops generalizing t with
  | nil =>
      simp only [runOps, maxPrefixSum]
      omega
  | cons op ops ih =>
      have hM := maxPrefixSum_nonneg ops
      have hfree' : ∀ op ∈ ops, op.freeNonneg :=
        fun o ho => hfree o (List.mem_cons_of_mem _ ho)
      cases op with
      | alloc size r =>
          rw [runOps_cons,
            ih (t.applyOp (.alloc size r))
              (by rw [applyOp_alloc_amount, applyOp_alloc_peak]; omega) hfree',
            applyOp_alloc_amount, applyOp_alloc_peak, maxPrefixSum, TrackerOp.delta]
          omega
      | free size =>
          have hs : (0 : Int) ≤ size := hfree (.free size) (List.mem_cons_self _ _)
          rw [runOps_cons,
            ih (t.applyOp (.free size))
              (by rw [applyOp_free_amount, applyOp_free_peak]; omega) hfree',
            applyOp_free_amount, applyOp_free_peak, maxPrefixSum, TrackerOp.delta]
          omega

/-! ## Claims -/

/-- C1: starting from a fresh tracker with no limit set and
`fault_probability = 0`, after any sequence of `alloc`/`free` calls (sizes
are byte counts, so a `free` size is non-negative) `get()` equals the sum of
all deltas and `getPeak()` equals the maximum prefix sum of those deltas
observed during the sequence, at least `0`, the initial peak. -/
theorem claim_C1_sum_and_peak (ops : List TrackerOp) (t0 : MemoryTracker)
    (hamount : t0.amount = 0) (hpeak : t0.peak = 0)
    (hlimit : t0.limit = 0) (hfault : t0.fault_probability = 0)
    (hfree : ∀ op ∈ ops, op.freeNonneg) :
    (runOps t0 ops).get = sumDeltas ops ∧
    (runOps t0 ops).getPeak = maxPrefixSum ops := by
  constructor
  · rw [MemoryTracker.get, runOps_amount, hamount]
    ring
  · rw [MemoryTracker.getPeak, runOps_peak ops t0 (by omega) hfree, hamount, hpeak]
    have := maxPrefixSum_nonneg ops
    omega

/-- Witness for C1 at a concrete call sequence: alloc 5, free 3, alloc 4;
the final amount is 6 and the peak is 6. -/
theorem claim_C1_witness :
    (runOps MemoryTracker.mkDefault
        [TrackerOp.alloc 5 0, TrackerOp.free 3, TrackerOp.alloc 4 0]).get
      = sumDeltas [TrackerOp.alloc 5 0, TrackerOp.free 3, TrackerOp.alloc 4 0] ∧
    (runOps MemoryTracker.mkDefault
        [TrackerOp.alloc 5 0, TrackerOp.free 3, TrackerOp.alloc 4 0]).getPeak
      = maxPrefixSum [TrackerOp.alloc 5 0, TrackerOp.free 3, TrackerOp.alloc 4 0] :=
  claim_C1_sum_and_peak _ MemoryTracker.mkDefault rfl rfl rfl rfl (by decide)

/-- C2: `alloc(size)` raises `BudgetExceeded` exactly when the injected
fault fires (`fault_probability > 0` and the uniform draw `r ∈ [0,1)` is
below it; with `fault_probability = 1` this is every call regardless of the
limit, with `fault_probability = 0` never) or when `limit > 0` and the
post-increment amount exceeds the limit; the raised condition carries the
current amount, the limit and the description, and the counter is not
rolled back: `amount` keeps the failed debit. -/
theorem claim_C2_alloc_raises (t : MemoryTracker) (size : Int) (r : Rat)
    (hr0 : 0 ≤ r) (hr1 : r < 1) :
    (t.allocLocal size r).1.amount = t.amount + size ∧
    ((t.allocLocal size r).2.isSome ↔
      ((0 < t.fault_probability ∧ r < t.fault_probability) ∨
       (0 < t.limit ∧ t.limit < t.amount + size))) ∧
    (∀ b, (t.allocLocal size r).2 = some b →
      b.amount = t.amount + size ∧ b.limit = t.limit ∧
        b.description = t.description) ∧
    (t.fault_probability = 1 → (t.allocLocal size r).2.isSome) ∧
    (t.fault_probability = 0 →
      ¬ (0 < t.fault_probability ∧ r < t.fault_probability)) := by
  refine ⟨rfl, ?_, ?_, ?_, ?_⟩
  · simp only [MemoryTracker.allocLocal]
    split_ifs with h1 h2
    · simp [h1]
    · simp [h1, h2]
    · simp [h1, h2]
  · intro b hb
    simp only [MemoryTracker.allocLocal] at hb
    split_ifs at hb with h1 h2
    · rw [Option.some_inj] at hb
      subst hb
      exact ⟨rfl, rfl, rfl⟩
    · rw [Option.some_inj] at hb
      subst hb
      exact ⟨rfl, rfl, rfl⟩
  · intro hp
    simp only [MemoryTracker.allocLocal, hp]
    have : (0 : Rat) < 1 := by norm_num
    simp [this, hr1]
  · intro hp
    rw [hp]
    simp

/-- Witness for C2: a tracker with limit 1000 and amount 600, alloc 500
with draw 0: the call raises, the condition carries amount 1100 and limit
1000, and the counter keeps the debit. -/
theorem claim_C2_witness :
    ((MemoryTracker.mkWithLimit 1000).free (-600)).allocLocal 500 0
        |>.1.amount = ((MemoryTracker.mkWithLimit 1000).free (-600)).amount + 500 ∧
    ((((MemoryTracker.mkWithLimit 1000).free (-600)).allocLocal 500 0).2.isSome ↔
      ((0 < ((MemoryTracker.mkWithLimit 1000).free (-600)).fault_probability ∧
          (0 : Rat) < ((MemoryTracker.mkWithLimit 1000).free (-600)).fault_probability) ∨
       (0 < ((MemoryTracker.mkWithLimit 1000).free (-600)).limit ∧
          ((MemoryTracker.mkWithLimit 1000).free (-600)).limit
            < ((MemoryTracker.mkWithLimit 1000).free (-600)).amount + 500))) ∧
    (∀ b, (((MemoryTracker.mkWithLimit 1000).free (-600)).allocLocal 500 0).2 = some b →
      b.amount = ((MemoryTracker.mkWithLimit 1000).free (-600)).amount + 500 ∧
        b.limit = ((MemoryTracker.mkWithLimit 1000).free (-600)).limit ∧
        b.description = ((MemoryTracker.mkWithLimit 1000).free (-600)).description) ∧
    (((MemoryTracker.mkWithLimit 1000).free (-600)).fault_probability = 1 →
      (((MemoryTracker.mkWithLimit 1000).free (-600)).allocLocal 500 0).2.isSome) ∧
    (((MemoryTracker.mkWithLimit 1000).free (-600)).fault_probability = 0 →
      ¬ (0 < ((MemoryTracker.mkWithLimit 1000).free (-600)).fault_probability ∧
          (0 : Rat) < ((MemoryTracker.mkWithLimit 1000).free (-600)).fault_probability)) :=
  claim_C2_alloc_raises ((MemoryTracker.mkWithLimit 1000).free (-600)) 500 0
    (by norm_num) (by norm_num)

/-- C3: `alloc` on the head of a chain forwards the same delta to every
tracker in the chain unconditionally, regardless of the outcome of any
local limit/fault check, so every ancestor observes the allocation; in
particular, for the chain `A → B → C` with a limit `100` only on `C`, the
allocation of `150` raises `BudgetExceeded` and the amounts of `A` and `B`
(and `C`) have all been incremented by the full amount and are not rolled
back. -/
theorem claim_C3_chain_forwarding (ts : List MemoryTracker) (size : Int)
    (rs : List Rat) :
    (chainAlloc ts size rs).1.map MemoryTracker.amount
        = ts.map (fun t => t.amount + size) ∧
    ((chainAlloc [MemoryTracker.mkDefault, MemoryTracker.mkDefault,
        MemoryTracker.mkWithLimit 100] 150 [0, 0, 0]).2.isSome ∧
      (chainAlloc [MemoryTracker.mkDefault, MemoryTracker.mkDefault,
        MemoryTracker.mkWithLimit 100] 150 [0, 0, 0]).1.map MemoryTracker.get
        = [150, 150, 150]) := by
  refine ⟨?_, by decide, by decide⟩
  induction ts generalizing rs with
  | nil => simp [chainAlloc]
  | cons t rest ih => simp [chainAlloc, ih, MemoryTracker.allocLocal]

/-- C4: `realloc(old, new)` is definitionally a single
`alloc(new - old)` (the inline body in the header), and its effect on
`amount` and `peak` equals the net effect of `free(old)` followed by
`alloc(new)` — no double counting. -/
theorem claim_C4_realloc_net (t : MemoryTracker) (old_size new_size : Int)
    (r : Rat) :
    t.realloc old_size new_size r = t.allocLocal (new_size - old_size) r ∧
    (t.realloc old_size new_size r).1.amount
        = ((t.free old_size).allocLocal new_size r).1.amount ∧
    (t.realloc old_size new_size r).1.peak
        = ((t.free old_size).allocLocal new_size r).1.peak := by
  refine ⟨rfl, ?_, ?_⟩ <;>
    simp only [MemoryTracker.realloc, MemoryTracker.allocLocal,
      MemoryTracker.free] <;>
    omega

/-- C5: constructing the reentrancy guard saves the thread's current
active-tracker pointer and sets it to null; destroying it restores exactly
the saved pointer; and every fully nested (LIFO) tower of guarded regions,
whatever each region does to the pointer, restores at every level exactly
the state that existed when that level's guard was constructed — in
particular the outermost initial state at the end. -/
theorem claim_C5_guard_lifo :
    (∀ cur : CurrentTracker,
      (guardConstruct cur).2 = none ∧
      (guardConstruct cur).1.memory_tracker = cur) ∧
    (∀ (g : TemporarilyDisableMemoryTracker) (cur : CurrentTracker),
      guardDestruct g cur = g.memory_tracker) ∧
    (∀ (fs : List (CurrentTracker → CurrentTracker)) (cur : CurrentTracker),
      nestedGuards fs cur = cur) := by
  refine ⟨fun cur => ⟨rfl, rfl⟩, fun g cur => rfl, fun fs cur => ?_⟩
  cases fs <;> rfl

/-- C6: `reset()` zeroes `amount` and `peak` (so `get()` and `getPeak()`
return 0) and leaves `limit`, `description`, `metric` and the `next` chain
link unchanged — stated for every tracker state, hence after any sequence
of operations. -/
theorem claim_C6_reset_frame (t : MemoryTracker) :
    t.reset.get = 0 ∧ t.reset.getPeak = 0 ∧
    t.reset.limit = t.limit ∧ t.reset.description = t.description ∧
    t.reset.metric = t.metric ∧ t.reset.next = t.next :=
  ⟨rfl, rfl, rfl, rfl, rfl, rfl⟩

/-- C7: `free(size)` subtracts `size` from `amount` and nothing else; its
result is the same whatever `limit` and `fault_probability` hold (it never
consults them and is a total function raising nothing, for every state
including amount already over limit); `reset`, `get`, `getPeak` and the
configuration setters are likewise total functions with these purely
state-functional meanings. -/
theorem claim_C7_free_total (t : MemoryTracker) (size limit_ : Int) (p : Rat) :
    t.free size = { t with amount := t.amount - size } ∧
    ({ t with limit := limit_, fault_probability := p }.free size
        = { t.free size with limit := limit_, fault_probability := p }) ∧
    t.reset = { t with amount := 0, peak := 0 } ∧
    t.get = t.amount ∧ t.getPeak = t.peak ∧
    t.setLimit limit_ = { t with limit := limit_ } ∧
    t.setFaultProbability p = { t with fault_probability := p } :=
  ⟨rfl, rfl, rfl, rfl, rfl, rfl, rfl⟩

/-- C8: a shrinking `realloc(old, new)` with `new < old` goes through
`alloc` with the negative delta `new - old`, not through `free`, so the
enforcement path still runs: when the injected fault fires (positive
`fault_probability`, draw below it) the call raises `BudgetExceeded` even
though it decreases `amount`. -/
theorem claim_C8_shrink_can_raise (t : MemoryTracker)
    (old_size new_size : Int) (r : Rat)
    (hshrink : new_size < old_size)
    (hp : 0 < t.fault_probability) (hr0 : 0 ≤ r)
    (hr : r < t.fault_probability) :
    t.realloc old_size new_size r = t.allocLocal (new_size - old_size) r ∧
    (t.realloc old_size new_size r).2.isSome ∧
    (t.realloc old_size new_size r).1.amount < t.amount := by
  refine ⟨rfl, ?_, ?_⟩
  · simp [MemoryTracker.realloc, MemoryTracker.allocLocal, hp, hr]
  · simp only [MemoryTracker.realloc, MemoryTracker.allocLocal]
    omega

/-- Witness for C8: fault probability one half, draw 0, realloc from 10
down to 4 raises while decreasing the amount. -/
theorem claim_C8_witness :
    (MemoryTracker.mkDefault.setFaultProbability (1 / 2)).realloc 10 4 0
        = (MemoryTracker.mkDefault.setFaultProbability (1 / 2)).allocLocal
            (4 - 10) 0 ∧
    ((MemoryTracker.mkDefault.setFaultProbability (1 / 2)).realloc 10 4 0).2.isSome ∧
    ((MemoryTracker.mkDefault.setFaultProbability (1 / 2)).realloc 10 4 0).1.amount
        < (MemoryTracker.mkDefault.setFaultProbability (1 / 2)).amount :=
  claim_C8_shrink_can_raise (MemoryTracker.mkDefault.setFaultProbability (1 / 2))
    10 4 0 (by norm_num)
    (by norm_num [MemoryTracker.setFaultProbability, MemoryTracker.mkDefault])
    le_rfl
    (by norm_num [MemoryTracker.setFaultProbability, MemoryTracker.mkDefault])

/-- C9: the guard destructor overwrites the thread's active-tracker pointer
with the value saved at construction regardless of the pointer's current
value: any `inner` value assigned inside the guarded region is discarded. -/
theorem claim_C9_destructor_overwrites (cur inner : CurrentTracker) :
    guardDestruct (guardConstruct cur).1 inner = cur :=
  rfl

/-- C10: a default-constructed tracker has amount 0, peak 0, limit 0
(unlimited), fault probability 0 and no `next` link, so `alloc` on it never
raises from its own checks; the one-argument constructor differs from the
default one only by setting `limit`. -/
theorem claim_C10_default_ctor :
    MemoryTracker.mkDefault.amount = 0 ∧
    MemoryTracker.mkDefault.peak = 0 ∧
    MemoryTracker.mkDefault.limit = 0 ∧
    MemoryTracker.mkDefault.fault_probability = 0 ∧
    MemoryTracker.mkDefault.next = none ∧
    (∀ (size : Int) (r : Rat),
      (MemoryTracker.mkDefault.allocLocal size r).2 = none) ∧
    (∀ limit_ : Int,
      MemoryTracker.mkWithLimit limit_
        = { MemoryTracker.mkDefault with limit := limit_ }) := by
  refine ⟨rfl, rfl, rfl, rfl, rfl, ?_, fun _ => rfl⟩
  intro size r
  simp [MemoryTracker.allocLocal, MemoryTracker.mkDefault]

end MemTrack
